import Mathlib

/-!
# Business Discovery Dashboard System — verification development

Shallow embedding of the core pipeline of the repository
(`src/core/database.py`, `src/core/lead_scorer.py`, the scrapers'
`discover_new_pages` loops and the scheduler's alert processing), together
with theorems settling the specification claims about it.

Python strings are modelled as `List Char` (sequences of Unicode code
points), so that every operation is an executable Lean function that the
kernel can evaluate on concrete inputs.  Python's `str.lower` is applied
here only to ASCII URLs and keyword lists, so the ASCII `Char.toLower`
map is a faithful model.
-/

namespace BusinessDiscovery

/-- Python strings: sequences of code points. -/
abbrev Str := List Char

/-- Model of `s.lower()` (ASCII case folding, the only case arising for the
URLs/keywords this system handles). -/
def lower (s : Str) : Str := s.map Char.toLower

/-- Does `s` start with `pat`?  (Helper for Python's substring test.) -/
def startsWithList (pat s : Str) : Bool :=
  match pat, s with
  | [], _ => true
  | _ :: _, [] => false
  | p :: ps, c :: cs => p == c && startsWithList ps cs

/-- Python's `pat in s` substring containment test. -/
def containsSub (s pat : Str) : Bool :=
  match s with
  | [] => pat.isEmpty
  | _ :: rest => startsWithList pat s || containsSub rest pat

/-- Python's `s.replace(pat, repl)`: replace every non-overlapping
occurrence, scanning left to right.  (The callers only ever pass
non-empty patterns; an empty pattern is returned unchanged.) -/
def replaceAll (pat repl s : Str) : Str :=
  match s with
  | [] => []
  | c :: rest =>
    if h : pat ≠ [] ∧ startsWithList pat (c :: rest) = true then
      repl ++ replaceAll pat repl ((c :: rest).drop pat.length)
    else
      c :: replaceAll pat repl rest
termination_by s.length
decreasing_by
  · have hp : 0 < pat.length := List.length_pos.mpr h.1
    simp only [List.length_drop, List.length_cons]
    omega
  · simp

/-- Python's `s.strip()` (whitespace trimmed from both ends). -/
def strip (s : Str) : Str :=
  ((s.dropWhile Char.isWhitespace).reverse.dropWhile Char.isWhitespace).reverse

/-- Python's `sep.join(xs)`. -/
def joinSep (sep : Str) (xs : List Str) : Str := List.intercalate sep xs

/-! ## MD5 (model of Python's `hashlib.md5(...).hexdigest()`)

`database.py` computes the dedup identity as
`hashlib.md5(page_url.lower().encode()).hexdigest()`.  `hashlib` is the
Python standard library, embedded here as the reference MD5 algorithm
over byte lists, with 32-bit words as `Nat` reduced mod `2^32`. -/

/-- Truncate to a 32-bit word. -/
def u32 (n : Nat) : Nat := n % 4294967296

/-- The 32-bit bitwise complement (valid for inputs below `2^32`). -/
def not32 (n : Nat) : Nat := 4294967295 - n

/-- The 32-bit left rotation. -/
def rotl32 (x n : Nat) : Nat := u32 ((x <<< n) ||| (x >>> (32 - n)))

/-- MD5 round constants `K[i] = floor(|sin(i+1)| * 2^32)`. -/
def md5K : List Nat := [
  3614090360, 3905402710, 606105819, 3250441966, 4118548399, 1200080426, 2821735955, 4249261313,
  1770035416, 2336552879, 4294925233, 2304563134, 1804603682, 4254626195, 2792965006, 1236535329,
  4129170786, 3225465664, 643717713, 3921069994, 3593408605, 38016083, 3634488961, 3889429448,
  568446438, 3275163606, 4107603335, 1163531501, 2850285829, 4243563512, 1735328473, 2368359562,
  4294588738, 2272392833, 1839030562, 4259657740, 2763975236, 1272893353, 4139469664, 3200236656,
  681279174, 3936430074, 3572445317, 76029189, 3654602809, 3873151461, 530742520, 3299628645,
  4096336452, 1126891415, 2878612391, 4237533241, 1700485571, 2399980690, 4293915773, 2240044497,
  1873313359, 4264355552, 2734768916, 1309151649, 4149444226, 3174756917, 718787259, 3951481745]

/-- MD5 per-round left-rotation amounts. -/
def md5S : List Nat := [
  7, 12, 17, 22, 7, 12, 17, 22, 7, 12, 17, 22, 7, 12, 17, 22,
  5, 9, 14, 20, 5, 9, 14, 20, 5, 9, 14, 20, 5, 9, 14, 20,
  4, 11, 16, 23, 4, 11, 16, 23, 4, 11, 16, 23, 4, 11, 16, 23,
  6, 10, 15, 21, 6, 10, 15, 21, 6, 10, 15, 21, 6, 10, 15, 21]

/-- Little-endian byte list to natural number. -/
def bytesToNatLE (bs : List Nat) : Nat := bs.foldr (fun b acc => b + 256 * acc) 0

/-- Model of `k` little-endian bytes of `n`. -/
def natToBytesLE : Nat → Nat → List Nat
  | 0, _ => []
  | k + 1, n => (n % 256) :: natToBytesLE k (n / 256)

/-- MD5 padding: `0x80`, zeros to 56 mod 64, then the 64-bit little-endian
bit length. -/
def md5pad (msg : List Nat) : List Nat :=
  let len := msg.length
  let zeros := (119 - len % 64) % 64
  msg ++ [128] ++ List.replicate zeros 0 ++
    natToBytesLE 8 ((len * 8) % 18446744073709551616)

/-- The `g`-th 32-bit little-endian word of a 64-byte chunk. -/
def md5word (chunk : List Nat) (g : Nat) : Nat :=
  bytesToNatLE ((chunk.drop (4 * g)).take 4)

/-- The four 32-bit MD5 state words. -/
structure MD5State where
  a : Nat
  b : Nat
  c : Nat
  d : Nat

/-- One of the 64 MD5 rounds. -/
def md5round (chunk : List Nat) (st : MD5State) (i : Nat) : MD5State :=
  let f :=
    if i < 16 then ((st.b &&& st.c) ||| (not32 st.b &&& st.d))
    else if i < 32 then ((st.d &&& st.b) ||| (not32 st.d &&& st.c))
    else if i < 48 then (st.b ^^^ st.c ^^^ st.d)
    else (st.c ^^^ (st.b ||| not32 st.d))
  let g :=
    if i < 16 then i
    else if i < 32 then (5 * i + 1) % 16
    else if i < 48 then (3 * i + 5) % 16
    else (7 * i) % 16
  let tmp := u32 (f + st.a + md5K.getD i 0 + md5word chunk g)
  { a := st.d, b := u32 (st.b + rotl32 tmp (md5S.getD i 0)), c := st.b, d := st.c }

/-- Process one 64-byte chunk. -/
def md5chunk (st : MD5State) (chunk : List Nat) : MD5State :=
  let r := (List.range 64).foldl (md5round chunk) st
  { a := u32 (st.a + r.a), b := u32 (st.b + r.b),
    c := u32 (st.c + r.c), d := u32 (st.d + r.d) }

/-- MD5 initialisation vector. -/
def md5init : MD5State := ⟨1732584193, 4023233417, 2562383102, 271733878⟩

/-- MD5 digest of a byte list: 16 bytes. -/
def md5bytes (msg : List Nat) : List Nat :=
  let padded := md5pad msg
  let final := (List.range (padded.length / 64)).foldl
    (fun st i => md5chunk st ((padded.drop (64 * i)).take 64)) md5init
  natToBytesLE 4 final.a ++ natToBytesLE 4 final.b ++
    natToBytesLE 4 final.c ++ natToBytesLE 4 final.d

/-- Lower-case hex digit. -/
def hexChar (n : Nat) : Char :=
  if n < 10 then Char.ofNat (48 + n) else Char.ofNat (87 + n)

/-- Lower-case hex rendering of a byte list. -/
def bytesToHex (bs : List Nat) : Str :=
  bs.foldr (fun b acc => hexChar (b / 16) :: hexChar (b % 16) :: acc) []

/-- UTF-8 encoding of one code point (Python `str.encode()`). -/
def utf8Char (c : Char) : List Nat :=
  let n := c.toNat
  if n < 128 then [n]
  else if n < 2048 then [192 ||| (n >>> 6), 128 ||| (n &&& 63)]
  else if n < 65536 then
    [224 ||| (n >>> 12), 128 ||| ((n >>> 6) &&& 63), 128 ||| (n &&& 63)]
  else
    [240 ||| (n >>> 18), 128 ||| ((n >>> 12) &&& 63),
     128 ||| ((n >>> 6) &&& 63), 128 ||| (n &&& 63)]

/-- UTF-8 encoding of a string (Python `str.encode()`). -/
def utf8Encode (s : Str) : List Nat := (s.map utf8Char).foldr (· ++ ·) []

/-- Model of `hashlib.md5(s.encode()).hexdigest()`. -/
def md5hex (s : Str) : Str := bytesToHex (md5bytes (utf8Encode s))

set_option maxRecDepth 100000

/-! ## Data model

A candidate record is a Python dict in the source; the scrapers always
populate the ten candidate keys (with `''` for unknown values), so the
dict is modelled as a structure of total fields.  The three scoring
fields carry the defaults `add_business` would read for an absent key
(`.get('confidence_score', 0)`, `.get('priority', 'medium')`). -/

/-- A candidate business record (the dict built by the scrapers and
consumed by `LeadScorer.score_business` and `DatabaseHandler.add_business`). -/
structure BusinessData where
  business_name : Str
  platform : Str
  page_url : Str
  category : Str
  location : Str
  phone : Str
  email : Str
  description : Str
  page_created_date : Str
  metadata : List (Str × Str) := []
  confidence_score : Nat := 0
  priority : Str := "medium".toList
  scoring_signals : List Str := []
deriving DecidableEq

/-- A row of the `businesses` table (`database.py` schema).  `metadata` is
stored as `json.dumps(...)` in the source; serialisation is injective and
opaque to every claim, so the row keeps the key-value list itself. -/
structure StoredBusiness where
  id : Nat
  business_name : Str
  platform : Str
  page_url : Str
  category : Str
  location : Str
  phone : Str
  email : Str
  description : Str
  confidence_score : Nat
  priority : Str
  page_created_date : Str
  discovered_date : Str
  last_updated : Str
  hash : Str
  metadata : List (Str × Str)
  alerted : Bool
  exported : Bool
deriving DecidableEq

/-- A row of the `search_history` table. -/
structure SearchEntry where
  platform : Str
  query : Str
  search_date : Str
  results_count : Nat
deriving DecidableEq

/-- The SQLite database state. -/
structure DB where
  businesses : List StoredBusiness := []
  search_history : List SearchEntry := []
deriving DecidableEq

/-! ## DatabaseHandler (`src/core/database.py`) -/

/-- Model of `DatabaseHandler.generate_hash`:
`hashlib.md5(page_url.lower().encode()).hexdigest()`. -/
def generate_hash (page_url : Str) : Str := md5hex (lower page_url)

/-- Model of `DatabaseHandler.business_exists`: `SELECT COUNT(*) ... WHERE hash = ?`
compared against zero. -/
def business_exists (db : DB) (page_url : Str) : Bool :=
  let hash_value := generate_hash page_url
  db.businesses.any (fun r => r.hash == hash_value)

/-- The row `add_business` inserts (`id` models SQLite AUTOINCREMENT as
one past the current row count; the schema defaults give
`alerted = exported = 0`). -/
def mkStored (b : BusinessData) (hash_value now : Str) (id : Nat) : StoredBusiness :=
  { id := id, business_name := b.business_name, platform := b.platform,
    page_url := b.page_url, category := b.category, location := b.location,
    phone := b.phone, email := b.email, description := b.description,
    confidence_score := b.confidence_score, priority := b.priority,
    page_created_date := b.page_created_date, discovered_date := now,
    last_updated := now, hash := hash_value, metadata := b.metadata,
    alerted := false, exported := false }

/-- Model of `DatabaseHandler.add_business`: returns the new database state and the
Python return value (`True` if added, `False` if duplicate).  `now` is the
`datetime.now().isoformat()` timestamp, passed explicitly. -/
def add_business (db : DB) (b : BusinessData) (now : Str) : DB × Bool :=
  if business_exists db b.page_url then (db, false)
  else
    let hash_value := generate_hash b.page_url
    ({ db with
        businesses :=
          db.businesses ++ [mkStored b hash_value now (db.businesses.length + 1)] },
     true)

/-- Model of `DatabaseHandler.mark_as_alerted`:
`UPDATE businesses SET alerted = 1 WHERE id = ?` — the single-field
update touches no other column. -/
def mark_as_alerted (db : DB) (business_id : Nat) : DB :=
  { db with
      businesses := db.businesses.map
        (fun r => if r.id = business_id then { r with alerted := true } else r) }

/-- Model of `DatabaseHandler.get_unalereted_businesses` (source spelling):
`SELECT * FROM businesses WHERE alerted = 0 ORDER BY confidence_score
DESC, discovered_date DESC`.  The ORDER BY clause only fixes presentation
order; none of the claims below depends on it, and marking records is
order-independent, so the model keeps the filter in table order. -/
def get_unalereted_businesses (db : DB) : List StoredBusiness :=
  db.businesses.filter (fun r => !r.alerted)

/-- Model of `DatabaseHandler.add_search_history`. -/
def add_search_history (db : DB) (platform query : Str) (now : Str)
    (results_count : Nat) : DB :=
  { db with
      search_history :=
        db.search_history ++ [⟨platform, query, now, results_count⟩] }

/-! ## LeadScorer (`src/core/lead_scorer.py`)

The scorer reads two rule tables from the configuration collaborator:
`config.get_location_signals()` and `config.get_keywords()`.  They are
passed explicitly as an immutable `Rules` value. -/

/-- Model of `location_signals` rule table (country aliases, major cities, phone
patterns), with `.get(key, [])` defaults. -/
structure LocationSignals where
  country : List Str := []
  major_cities : List Str := []
  phone_patterns : List Str := []
deriving DecidableEq

/-- One category's configuration, with the `.get('keywords', [])` and
`.get('priority', 'medium')` defaults used by the scorer. -/
structure CategoryData where
  keywords : List Str := []
  priority : Str := "medium".toList
deriving DecidableEq

/-- The rule tables held by a `LeadScorer` instance. -/
structure Rules where
  location_signals : LocationSignals
  categories : List (Str × CategoryData)
deriving DecidableEq

/-- Model of `self.categories.get(category, {})` with the field defaults applied. -/
def lookupCat (cats : List (Str × CategoryData)) (c : Str) : CategoryData :=
  match cats.lookup c with
  | some d => d
  | none => {}

/-- Decimal rendering of a natural number (Python f-string `{n}`). -/
def natDigits (n : Nat) : Str :=
  if n < 10 then [Char.ofNat (48 + n)]
  else natDigits (n / 10) ++ [Char.ofNat (48 + n % 10)]
termination_by n
decreasing_by exact Nat.div_lt_self (by omega) (by omega)

/-- The combined lower-cased text of name, description, location and
category that `score_business` analyses. -/
def combined_text (b : BusinessData) : Str :=
  lower (joinSep " ".toList
    [b.business_name, b.description, b.location, b.category])

/-- Model of `LeadScorer._score_location`: +10 for the first matching country
alias, +15 if any major city matches, +5 for the first matching phone
pattern; capped at 30. -/
def score_location (ls : LocationSignals) (text : Str) : Nat × List Str :=
  let countryRes :=
    match ls.country.find? (fun c => containsSub text (lower c)) with
    | some c => (10, ["Country: ".toList ++ c])
    | none => (0, [])
  let cities_found := ls.major_cities.filter (fun c => containsSub text (lower c))
  let cityRes :=
    if cities_found.isEmpty then (0, ([] : List Str))
    else (15, ["Cities: ".toList ++ joinSep ", ".toList (cities_found.take 3)])
  let patRes :=
    match ls.phone_patterns.find? (fun p => containsSub text p) with
    | some p => (5, ["Phone pattern: ".toList ++ p])
    | none => (0, [])
  (min (countryRes.1 + cityRes.1 + patRes.1) 30,
   countryRes.2 ++ cityRes.2 ++ patRes.2)

/-- Model of `LeadScorer._score_category`: 0 for a falsy category; otherwise
`min(matches * 5, 25)` over the category's configured keywords. -/
def score_category (cats : List (Str × CategoryData)) (text : Str)
    (category : Str) : Nat × List Str :=
  if category.isEmpty then (0, [])
  else
    let keywords := (lookupCat cats category).keywords
    let matched := keywords.filter (fun k => containsSub text (lower k))
    if matched.isEmpty then (0, [])
    else
      (min (matched.length * 5) 25,
       ["Category keywords: ".toList ++ joinSep ", ".toList (matched.take 3)])

/-- Model of `LeadScorer._score_contact_info`: +10 for a non-empty phone, +10 for
a non-empty email. -/
def score_contact_info (b : BusinessData) : Nat × List Str :=
  let phoneRes :=
    if b.phone.isEmpty then (0, ([] : List Str)) else (10, ["Has phone".toList])
  let emailRes :=
    if b.email.isEmpty then (0, ([] : List Str)) else (10, ["Has email".toList])
  (phoneRes.1 + emailRes.1, phoneRes.2 ++ emailRes.2)

/-- Model of `LeadScorer._score_freshness`: flat 15 whenever a creation date is
present (the source comment calls this a simplified heuristic). -/
def score_freshness (page_created_date : Str) : Nat :=
  if page_created_date.isEmpty then 0 else 15

/-- Model of `LeadScorer._score_content_quality`: +5 for a description longer than
50 characters, +5 for a non-empty business name. -/
def score_content_quality (b : BusinessData) : Nat :=
  (if b.description.length > 50 then 5 else 0)
  + (if b.business_name.isEmpty then 0 else 5)

/-- Model of `LeadScorer._determine_priority`. -/
def determine_priority (cats : List (Str × CategoryData)) (score : Nat)
    (category : Str) : Str :=
  let category_priority := (lookupCat cats category).priority
  if score ≥ 80 ∨ category_priority = "high".toList then "high".toList
  else if score ≥ 60 then "medium".toList
  else "low".toList

/-- Model of `LeadScorer.score_business`: sums the five sub-scores, caps the total
at 100, assigns the priority, and writes `confidence_score`, `priority`
and `scoring_signals` back into the record. -/
def score_business (rules : Rules) (b : BusinessData) : BusinessData :=
  let text := combined_text b
  let locationRes := score_location rules.location_signals text
  let categoryRes := score_category rules.categories text b.category
  let contactRes := score_contact_info b
  let freshness_score := score_freshness b.page_created_date
  let freshnessSigs : List Str :=
    if freshness_score > 0 then
      ["Freshness: ".toList ++ natDigits freshness_score ++ " points".toList]
    else []
  let quality_score := score_content_quality b
  let qualitySigs : List Str :=
    if quality_score > 0 then
      ["Content quality: ".toList ++ natDigits quality_score ++ " points".toList]
    else []
  let score := locationRes.1 + categoryRes.1 + contactRes.1
    + freshness_score + quality_score
  let signals := locationRes.2 ++ categoryRes.2 ++ contactRes.2
    ++ freshnessSigs ++ qualitySigs
  { b with
      confidence_score := min score 100,
      priority := determine_priority rules.categories score b.category,
      scoring_signals := signals }

/-- The total (uncapped) score of `score_business`, written
compositionally from the five sub-scorers. -/
def totalScore (rules : Rules) (b : BusinessData) : Nat :=
  (score_location rules.location_signals (combined_text b)).1
  + (score_category rules.categories (combined_text b) b.category).1
  + (score_contact_info b).1
  + score_freshness b.page_created_date
  + score_content_quality b

/-- The signal list of `score_business`, written compositionally from the
five sub-scorers. -/
def totalSignals (rules : Rules) (b : BusinessData) : List Str :=
  (score_location rules.location_signals (combined_text b)).2
  ++ (score_category rules.categories (combined_text b) b.category).2
  ++ (score_contact_info b).2
  ++ (if score_freshness b.page_created_date > 0 then
        ["Freshness: ".toList ++ natDigits (score_freshness b.page_created_date)
          ++ " points".toList]
      else [])
  ++ (if score_content_quality b > 0 then
        ["Content quality: ".toList ++ natDigits (score_content_quality b)
          ++ " points".toList]
      else [])

/-- The priority ladder exactly as the spec words it (§4.2), evaluated
first-match-wins; compared against `determine_priority` in claim C4. -/
def prioritySpecLadder (category_priority : Str) (score : Nat) : Str :=
  if score ≥ 80 then "high".toList
  else if category_priority = "high".toList then "high".toList
  else if score ≥ 60 then "medium".toList
  else "low".toList

/-- Numeric rank of a priority tier (HIGH > MEDIUM > LOW). -/
def tierRank (p : Str) : Nat :=
  if p = "high".toList then 2 else if p = "medium".toList then 1 else 0

/-! ## Discovery passes (`src/scrapers/google_scraper.py`,
`src/scrapers/facebook_scraper.py`)

The network fetch is the external source collaborator; a pass is
modelled on the list of fetched results.  `TraceEvent` instruments the
loop so that "the scoring engine is invoked" and "an insert is
attempted" are observable facts about a pass. -/

/-- One Google Custom Search result as `search_google` returns it. -/
structure SearchResult where
  title : Str
  url : Str
  snippet : Str
  display_link : Str
deriving DecidableEq

/-- Observable events of a discovery pass (instrumentation, not state). -/
inductive TraceEvent where
  | scored (url : Str)
  | insertAttempt (url : Str)
deriving DecidableEq

/-- State threaded through a discovery pass: the database, the
`discovered` list the pass returns, and the event trace. -/
structure PassState where
  db : DB
  discovered : List BusinessData := []
  trace : List TraceEvent := []
deriving DecidableEq

/-- Model of `GoogleScraper._extract_business_name`. -/
def extract_business_name (title platform : Str) : Str :=
  let t :=
    if platform == "Facebook".toList then
      replaceAll " | Facebook".toList [] (replaceAll " - Facebook".toList [] title)
    else if platform == "LinkedIn".toList then
      replaceAll " | LinkedIn".toList [] (replaceAll " - LinkedIn".toList [] title)
    else title
  strip t

/-- Model of `GoogleScraper._extract_location`. -/
def extract_location (ls : LocationSignals) (text : Str) : Str :=
  match ls.major_cities.find? (fun c => containsSub (lower text) (lower c)) with
  | some c => c
  | none =>
    if containsSub (lower text) "nigeria".toList then "Nigeria".toList else []

/-- Model of `GoogleScraper._extract_from_search_result`.  The source wraps the
dict construction in try/except returning None, but the body is total, so
the model always produces the record. -/
def extract_from_search_result (ls : LocationSignals) (result : SearchResult)
    (platform category : Str) : BusinessData :=
  { business_name := extract_business_name result.title platform,
    platform := platform,
    page_url := result.url,
    category := category,
    location := extract_location ls result.snippet,
    phone := [], email := [],
    description := result.snippet,
    page_created_date := [],
    metadata := [("discovered_via".toList, "Google Search".toList),
                 ("search_snippet".toList, result.snippet)] }

/-- The per-result body of `GoogleScraper.discover_new_pages`
(lines 157-180): skip known URLs before scoring, score, apply the
minimum-confidence threshold, then attempt the insert. -/
def googleProcessResult (rules : Rules) (minScore : Nat)
    (platform category now : Str) (st : PassState) (result : SearchResult) :
    PassState :=
  if business_exists st.db result.url then st
  else
    let business_data :=
      extract_from_search_result rules.location_signals result platform category
    let scored := score_business rules business_data
    let trace1 := st.trace ++ [TraceEvent.scored result.url]
    if minScore ≤ scored.confidence_score then
      let ins := add_business st.db scored now
      { db := ins.1,
        discovered :=
          if ins.2 then st.discovered ++ [scored] else st.discovered,
        trace := trace1 ++ [TraceEvent.insertAttempt result.url] }
    else
      { db := st.db, discovered := st.discovered, trace := trace1 }

/-- One query's slice of a `GoogleScraper.discover_new_pages` pass: the
result loop followed by the `add_search_history` call. -/
def googlePass (rules : Rules) (minScore : Nat)
    (platform category query now : Str) (db : DB)
    (results : List SearchResult) : PassState :=
  let st := results.foldl
    (googleProcessResult rules minScore platform category now)
    { db := db }
  { st with
      db := add_search_history st.db platform query now results.length }

/-- The per-result body of `FacebookScraper.discover_new_pages`
(lines 168-181): the category is stamped onto the result, the candidate
is scored unconditionally, and `add_business` performs the only
duplicate check. -/
def facebookProcessResult (rules : Rules) (minScore : Nat)
    (category now : Str) (st : PassState) (result : BusinessData) :
    PassState :=
  let business_data := { result with category := category }
  let scored := score_business rules business_data
  let trace1 := st.trace ++ [TraceEvent.scored business_data.page_url]
  if minScore ≤ scored.confidence_score then
    let ins := add_business st.db scored now
    { db := ins.1,
      discovered :=
        if ins.2 then st.discovered ++ [scored] else st.discovered,
      trace := trace1 ++ [TraceEvent.insertAttempt business_data.page_url] }
  else
    { db := st.db, discovered := st.discovered, trace := trace1 }

/-- One query's slice of a `FacebookScraper.discover_new_pages` pass. -/
def facebookPass (rules : Rules) (minScore : Nat) (category now : Str)
    (db : DB) (results : List BusinessData) : PassState :=
  results.foldl (facebookProcessResult rules minScore category now) { db := db }

/-! ## TaskScheduler alert processing (`src/scheduler/task_scheduler.py`)

`AlertManager.send_alert` (alert_manager.py lines 29-44) catches every
exception internally and returns `None`, so the scheduler receives no
success signal from a delivery attempt.  The environment's per-record
delivery outcome is exposed here as `deliveryOk` so that claims about
failed deliveries can be stated; the modelled scheduler, like the
source, never consults it. -/

/-- Model of `TaskScheduler.process_instant_alerts` (lines 144-165): every
unalerted record is handed to `send_alert` and then unconditionally
marked as alerted. -/
def process_instant_alerts (db : DB) (deliveryOk : Nat → Bool) : DB :=
  let _ := deliveryOk
  (get_unalereted_businesses db).foldl (fun d b => mark_as_alerted d b.id) db

/-! ## Concrete sample data (used by witnesses and counterexamples) -/

/-- A concrete rule table in the shape of `config/keywords.yaml`. -/
def sampleRules : Rules :=
  { location_signals :=
      { country := ["Nigeria".toList],
        major_cities := ["Lagos".toList, "Abuja".toList],
        phone_patterns := ["+234".toList] },
    categories :=
      [("food".toList,
        { keywords := ["bakery".toList, "bread".toList],
          priority := "high".toList }),
       ("tech".toList, { keywords := [] })] }

/-- A concrete stored row. -/
def sampleRow : StoredBusiness :=
  { id := 1, business_name := "Lagos Bakery".toList,
    platform := "Facebook".toList,
    page_url := "https://facebook.com/lagosbakery".toList,
    category := "food".toList, location := "Lagos".toList,
    phone := [], email := [], description := [],
    confidence_score := 70, priority := "medium".toList,
    page_created_date := [],
    discovered_date := "2024-01-01T00:00:00".toList,
    last_updated := "2024-01-01T00:00:00".toList,
    hash := "h1".toList, metadata := [], alerted := false, exported := false }

/-- A concrete candidate record. -/
def sampleCandidate : BusinessData :=
  { business_name := "Lagos Bakery".toList,
    platform := "Facebook".toList,
    page_url := "https://facebook.com/lagosbakery".toList,
    category := "food".toList,
    location := "Lagos, Nigeria".toList,
    phone := "+2348012345678".toList, email := [],
    description := "A fresh bakery in Lagos serving bread daily".toList,
    page_created_date := [], metadata := [] }

/-- A database already holding a row whose dedup hash is the genuine
identity hash of `sampleCandidate.page_url`. -/
def seededDB : DB :=
  { businesses := [{ sampleRow with hash := generate_hash sampleCandidate.page_url }] }

/-! ## Theorems -/

/-- Sanity anchor for the embedded MD5 against the reference value
`hashlib.md5("abc".encode()).hexdigest()`. -/
theorem md5hex_reference_abc :
    md5hex "abc".toList = "900150983cd24fb0d6963f7d28e17f72".toList := by
  decide

/-- Claim C8: the identity hash is a pure function of the page URL string —
it factors through lower-casing, so any two URLs equal after lower-casing
receive the same digest.  Determinism and independence from process state
or time hold by construction: `generate_hash` is a closed function of its
string argument alone. -/
theorem c8_identity_hash_pure (u v : Str) (h : lower u = lower v) :
    generate_hash u = generate_hash v
    ∧ generate_hash u = md5hex (lower u) := by
  refine ⟨?_, rfl⟩
  unfold generate_hash
  rw [h]

/-- Witness for C8 at a concrete pair of case-variant URLs. -/
theorem c8_identity_hash_pure_witness :
    lower "https://FB.com/X".toList = lower "https://fb.com/x".toList
    ∧ generate_hash "https://FB.com/X".toList
      = generate_hash "https://fb.com/x".toList := by
  have h : lower "https://FB.com/X".toList = lower "https://fb.com/x".toList := by
    decide
  exact ⟨h, (c8_identity_hash_pure _ _ h).1⟩

/-- Claim C1: a first insert of a fresh identity succeeds (returns `true`)
and persists the record with `discovered_date = last_updated = now` and
`alerted = false`; a second insert whose `page_url` equals the first up
to case fails (returns `false`) and leaves the database unchanged, so
the store never holds two records of the same identity. -/
theorem c1_insert_is_dedup_gate (db : DB) (b b2 : BusinessData)
    (now now2 : Str)
    (h1 : business_exists db b.page_url = false)
    (h2 : lower b2.page_url = lower b.page_url) :
    (add_business db b now).2 = true
    ∧ (add_business db b now).1.businesses.map
        (fun r => (r.discovered_date, r.last_updated, r.alerted))
      = db.businesses.map (fun r => (r.discovered_date, r.last_updated, r.alerted))
        ++ [(now, now, false)]
    ∧ add_business (add_business db b now).1 b2 now2
      = ((add_business db b now).1, false) := by
  have hg : generate_hash b2.page_url = generate_hash b.page_url := by
    unfold generate_hash
    rw [h2]
  have hex2 : business_exists
      { db with businesses := db.businesses
          ++ [mkStored b (generate_hash b.page_url) now (db.businesses.length + 1)] }
      b2.page_url = true := by
    simp [business_exists, hg, mkStored]
  refine ⟨?_, ?_, ?_⟩
  · simp [add_business, h1]
  · simp [add_business, h1, mkStored]
  · simp [add_business, h1, hex2]

/-- Witness for C1: inserting into the empty database, then re-inserting
a case variant of the same URL. -/
theorem c1_insert_is_dedup_gate_witness :
    (add_business {} sampleCandidate "t1".toList).2 = true
    ∧ (add_business {} sampleCandidate "t1".toList).1.businesses.map
        (fun r => (r.discovered_date, r.last_updated, r.alerted))
      = ([] : List StoredBusiness).map
          (fun r => (r.discovered_date, r.last_updated, r.alerted))
        ++ [("t1".toList, "t1".toList, false)]
    ∧ add_business (add_business {} sampleCandidate "t1".toList).1
        { sampleCandidate with page_url := "https://Facebook.com/LagosBakery".toList }
        "t2".toList
      = ((add_business {} sampleCandidate "t1".toList).1, false) :=
  c1_insert_is_dedup_gate {} sampleCandidate
    { sampleCandidate with page_url := "https://Facebook.com/LagosBakery".toList }
    "t1".toList "t2".toList (by decide) (by decide)

/-- Claim C2: for every candidate and every rule table, the confidence
score assigned by the scorer lies in `[0, 100]`. -/
theorem c2_confidence_bounds (rules : Rules) (b : BusinessData) :
    0 ≤ (score_business rules b).confidence_score
    ∧ (score_business rules b).confidence_score ≤ 100 := by
  refine ⟨Nat.zero_le _, ?_⟩
  have h : (score_business rules b).confidence_score
      = min (totalScore rules b) 100 := rfl
  rw [h]
  exact Nat.min_le_right _ _

/-- Claim C10: scoring returns the same record with exactly the three
fields `confidence_score`, `priority` and `scoring_signals` overwritten
(to the values determined compositionally by the five sub-scorers), and
every other field unchanged. -/
theorem c10_scoring_frame (rules : Rules) (b : BusinessData) :
    (score_business rules b).business_name = b.business_name
    ∧ (score_business rules b).platform = b.platform
    ∧ (score_business rules b).page_url = b.page_url
    ∧ (score_business rules b).category = b.category
    ∧ (score_business rules b).location = b.location
    ∧ (score_business rules b).phone = b.phone
    ∧ (score_business rules b).email = b.email
    ∧ (score_business rules b).description = b.description
    ∧ (score_business rules b).page_created_date = b.page_created_date
    ∧ (score_business rules b).metadata = b.metadata
    ∧ (score_business rules b).confidence_score = min (totalScore rules b) 100
    ∧ (score_business rules b).priority
      = determine_priority rules.categories (totalScore rules b) b.category
    ∧ (score_business rules b).scoring_signals = totalSignals rules b :=
  ⟨rfl, rfl, rfl, rfl, rfl, rfl, rfl, rfl, rfl, rfl, rfl, rfl, rfl⟩

/-- Claim C4: the priority tier equals the spec's first-match-wins ladder
(`score ≥ 80` → HIGH; else category default HIGH → HIGH; else
`score ≥ 60` → MEDIUM; else LOW), and for any two candidates whose
categories have equal configured default priority, the higher score never
receives a strictly lower tier. -/
theorem c4_priority_ladder (cats : List (Str × CategoryData)) (s s1 s2 : Nat)
    (cat cat1 cat2 : Str)
    (heq : (lookupCat cats cat1).priority = (lookupCat cats cat2).priority)
    (hle : s1 ≤ s2) :
    determine_priority cats s cat
      = prioritySpecLadder (lookupCat cats cat).priority s
    ∧ tierRank (determine_priority cats s1 cat1)
      ≤ tierRank (determine_priority cats s2 cat2) := by
  constructor
  · by_cases h80 : 80 ≤ s
    · simp [determine_priority, prioritySpecLadder, h80]
    · by_cases hp : (lookupCat cats cat).priority = "high".toList
      · simp [determine_priority, prioritySpecLadder, h80, hp]
      · simp [determine_priority, prioritySpecLadder, h80, hp]
  · by_cases hp : (lookupCat cats cat1).priority = "high".toList
    · have hp2 : (lookupCat cats cat2).priority = "high".toList := heq ▸ hp
      simp [determine_priority, hp, hp2]
    · have hp2 : ¬(lookupCat cats cat2).priority = "high".toList := heq ▸ hp
      simp only [determine_priority, hp, hp2, or_false]
      split_ifs <;> first | decide | omega

/-- Witness for C4 at concrete scores 70 (ladder part) and 50 ≤ 90
(monotonicity part) over the sample rule table. -/
theorem c4_priority_ladder_witness :
    determine_priority sampleRules.categories 70 "tech".toList
      = prioritySpecLadder (lookupCat sampleRules.categories "tech".toList).priority 70
    ∧ tierRank (determine_priority sampleRules.categories 50 "tech".toList)
      ≤ tierRank (determine_priority sampleRules.categories 90 "tech".toList) :=
  c4_priority_ladder sampleRules.categories 70 50 90
    "tech".toList "tech".toList "tech".toList rfl (by decide)

/-- Claim C5: the category sub-score is 0 whenever the candidate's category
has no associated keywords (in particular for an empty category, where
the signal list is also empty); otherwise — for a duplicate-free
configured keyword list, as the rule tables are — it equals
`min(m * 5, 25)` where `m` is the number of distinct configured keywords
of the category occurring case-insensitively in the combined text. -/
theorem c5_category_score (rules : Rules) (b : BusinessData) :
    (b.category = [] →
      score_category rules.categories (combined_text b) b.category = (0, []))
    ∧ ((lookupCat rules.categories b.category).keywords = [] →
      score_category rules.categories (combined_text b) b.category = (0, []))
    ∧ (b.category ≠ [] →
      (lookupCat rules.categories b.category).keywords.Nodup →
      (score_category rules.categories (combined_text b) b.category).1
        = min
            ((((lookupCat rules.categories b.category).keywords.filter
                (fun k => containsSub (combined_text b) (lower k))).dedup).length
              * 5)
            25) := by
  refine ⟨?_, ?_, ?_⟩
  · intro h
    simp [score_category, h]
  · intro h
    rcases hc : b.category with _ | ⟨c, cs⟩
    · simp [score_category]
    · rw [hc] at h
      simp [score_category, h]
  · intro hne hnd
    have hd : ((lookupCat rules.categories b.category).keywords.filter
          (fun k => containsSub (combined_text b) (lower k))).dedup
        = (lookupCat rules.categories b.category).keywords.filter
            (fun k => containsSub (combined_text b) (lower k)) :=
      List.dedup_eq_self.mpr (hnd.filter _)
    rw [hd]
    have hcat : b.category.isEmpty = false := by
      cases hc : b.category
      · exact absurd hc hne
      · rfl
    rcases hm : (lookupCat rules.categories b.category).keywords.filter
        (fun k => containsSub (combined_text b) (lower k)) with _ | ⟨m, ms⟩
    · simp [score_category, hcat, hm]
    · simp [score_category, hcat, hm]

/-- Witness for C5: an empty category yields `(0, [])`; a category with a
duplicate-free keyword list yields the distinct-match formula. -/
theorem c5_category_score_witness :
    (score_category sampleRules.categories
        (combined_text { sampleCandidate with category := [] }) []
      = (0, []))
    ∧ ((score_category sampleRules.categories
          (combined_text sampleCandidate) sampleCandidate.category).1
      = min
          ((((lookupCat sampleRules.categories sampleCandidate.category).keywords.filter
              (fun k => containsSub (combined_text sampleCandidate) (lower k))).dedup).length
            * 5)
          25) :=
  ⟨(c5_category_score sampleRules { sampleCandidate with category := [] }).1 rfl,
   (c5_category_score sampleRules sampleCandidate).2.2 (by decide) (by decide)⟩

/-- Any row present after `add_business` was already present or is the
freshly inserted row, which carries the candidate's confidence score. -/
theorem add_business_mem (db : DB) (b : BusinessData) (now : Str)
    (r : StoredBusiness) (h : r ∈ (add_business db b now).1.businesses) :
    r ∈ db.businesses ∨ r.confidence_score = b.confidence_score := by
  by_cases hex : business_exists db b.page_url = true
  · simp [add_business, hex] at h
    exact Or.inl h
  · simp [add_business, hex] at h
    rcases h with h | h
    · exact Or.inl h
    · right
      rw [h]
      rfl

/-- Per-candidate invariant of the Google result loop: every row in the
database afterwards was there before or meets the threshold. -/
theorem googleProcessResult_mem (rules : Rules) (minScore : Nat)
    (platform category now : Str) (st : PassState) (result : SearchResult)
    (r : StoredBusiness)
    (h : r ∈ (googleProcessResult rules minScore platform category now
        st result).db.businesses) :
    r ∈ st.db.businesses ∨ minScore ≤ r.confidence_score := by
  by_cases hex : business_exists st.db result.url = true
  · simp [googleProcessResult, hex] at h
    exact Or.inl h
  · by_cases hth : minScore ≤ (score_business rules
        (extract_from_search_result rules.location_signals result
          platform category)).confidence_score
    · simp [googleProcessResult, hex, hth] at h
      rcases add_business_mem _ _ _ _ h with h' | h'
      · exact Or.inl h'
      · right
        rw [h']
        exact hth
    · simp [googleProcessResult, hex, hth] at h
      exact Or.inl h

/-- Per-candidate invariant of the Facebook result loop. -/
theorem facebookProcessResult_mem (rules : Rules) (minScore : Nat)
    (category now : Str) (st : PassState) (result : BusinessData)
    (r : StoredBusiness)
    (h : r ∈ (facebookProcessResult rules minScore category now
        st result).db.businesses) :
    r ∈ st.db.businesses ∨ minScore ≤ r.confidence_score := by
  by_cases hth : minScore ≤ (score_business rules
      { result with category := category }).confidence_score
  · simp [facebookProcessResult, hth] at h
    rcases add_business_mem _ _ _ _ h with h' | h'
    · exact Or.inl h'
    · right
      rw [h']
      exact hth
  · simp [facebookProcessResult, hth] at h
    exact Or.inl h

/-- Fold invariant for the Google result loop. -/
theorem googleFold_mem (rules : Rules) (minScore : Nat)
    (platform category now : Str) (results : List SearchResult) :
    ∀ (st : PassState) (r : StoredBusiness),
      r ∈ (results.foldl
        (googleProcessResult rules minScore platform category now)
        st).db.businesses →
      r ∈ st.db.businesses ∨ minScore ≤ r.confidence_score := by
  induction results with
  | nil => exact fun st r h => Or.inl h
  | cons x xs ih =>
    intro st r h
    rw [List.foldl_cons] at h
    rcases ih _ r h with h' | h'
    · exact googleProcessResult_mem _ _ _ _ _ _ _ _ h'
    · exact Or.inr h'

/-- Fold invariant for the Facebook result loop. -/
theorem facebookFold_mem (rules : Rules) (minScore : Nat)
    (category now : Str) (results : List BusinessData) :
    ∀ (st : PassState) (r : StoredBusiness),
      r ∈ (results.foldl
        (facebookProcessResult rules minScore category now) st).db.businesses →
      r ∈ st.db.businesses ∨ minScore ≤ r.confidence_score := by
  induction results with
  | nil => exact fun st r h => Or.inl h
  | cons x xs ih =>
    intro st r h
    rw [List.foldl_cons] at h
    rcases ih _ r h with h' | h'
    · exact facebookProcessResult_mem _ _ _ _ _ _ _ h'
    · exact Or.inr h'

/-- Claim C3: no record with a confidence score below the configured
minimum is ever persisted by a discovery pass — every row in the database
after a Google or Facebook pass was already stored before the pass or has
`confidence_score ≥ minScore`. -/
theorem c3_threshold_filter (rules : Rules) (minScore : Nat)
    (platform category query now : Str) (db : DB)
    (gresults : List SearchResult) (fresults : List BusinessData)
    (r : StoredBusiness) :
    (r ∈ (googlePass rules minScore platform category query now db
        gresults).db.businesses →
      r ∈ db.businesses ∨ minScore ≤ r.confidence_score)
    ∧ (r ∈ (facebookPass rules minScore category now db
        fresults).db.businesses →
      r ∈ db.businesses ∨ minScore ≤ r.confidence_score) := by
  constructor
  · intro h
    have h' : r ∈ (gresults.foldl
        (googleProcessResult rules minScore platform category now)
        { db := db }).db.businesses := by
      simpa [googlePass, add_search_history] using h
    exact googleFold_mem _ _ _ _ _ _ _ _ h'
  · intro h
    exact facebookFold_mem _ _ _ _ _ _ _ h

/-- Witness for C3 over a concrete store and empty fetch results. -/
theorem c3_threshold_filter_witness :
    (sampleRow ∈ (DB.mk [sampleRow] []).businesses
      ∨ 60 ≤ sampleRow.confidence_score)
    ∧ (sampleRow ∈ (DB.mk [sampleRow] []).businesses
      ∨ 60 ≤ sampleRow.confidence_score) :=
  ⟨(c3_threshold_filter sampleRules 60 "Facebook".toList "food".toList
      "q".toList "t1".toList (DB.mk [sampleRow] []) [] [] sampleRow).1
    (by decide),
   (c3_threshold_filter sampleRules 60 "Facebook".toList "food".toList
      "q".toList "t1".toList (DB.mk [sampleRow] []) [] [] sampleRow).2
    (by decide)⟩

/-- Claim C6 counterexample: in the Facebook discovery pass a candidate
whose `page_url` is already stored is NOT skipped before scoring — the
scoring engine runs and an insert is attempted (`add_business` is
invoked), refuting the claim for "every source". -/
theorem c6_counterexample :
    business_exists seededDB sampleCandidate.page_url = true
    ∧ (facebookProcessResult sampleRules 0 "food".toList "t2".toList
        { db := seededDB } sampleCandidate).trace
      = [TraceEvent.scored sampleCandidate.page_url,
         TraceEvent.insertAttempt sampleCandidate.page_url] := by
  constructor
  · decide
  · decide

/-- Claim C6 amended: in the Google pass a candidate with a known URL is
skipped before scoring (the pass state is returned untouched — no scoring
event, no insert attempt); in the Facebook pass such a candidate is
re-scored and an insert is attempted, but the insert fails inside
`add_business`, so the store and the discovered list are unchanged. -/
theorem c6_amended_dedup_behaviour (rules : Rules) (minScore : Nat)
    (platform category now : Str) (st : PassState) (result : SearchResult)
    (fb : BusinessData)
    (hg : business_exists st.db result.url = true)
    (hf : business_exists st.db fb.page_url = true) :
    googleProcessResult rules minScore platform category now st result = st
    ∧ (facebookProcessResult rules minScore category now st fb).db = st.db
    ∧ (facebookProcessResult rules minScore category now st fb).discovered
      = st.discovered
    ∧ (facebookProcessResult rules minScore category now st fb).trace
      = st.trace ++ [TraceEvent.scored fb.page_url]
        ++ (if minScore ≤ (score_business rules
              { fb with category := category }).confidence_score
            then [TraceEvent.insertAttempt fb.page_url] else []) := by
  have hf' : business_exists st.db (score_business rules
      { fb with category := category }).page_url = true := hf
  refine ⟨?_, ?_, ?_, ?_⟩
  · simp [googleProcessResult, hg]
  · by_cases hth : minScore ≤ (score_business rules
        { fb with category := category }).confidence_score
    · simp [facebookProcessResult, hth, add_business, hf']
    · simp [facebookProcessResult, hth]
  · by_cases hth : minScore ≤ (score_business rules
        { fb with category := category }).confidence_score
    · simp [facebookProcessResult, hth, add_business, hf']
    · simp [facebookProcessResult, hth]
  · by_cases hth : minScore ≤ (score_business rules
        { fb with category := category }).confidence_score
    · simp [facebookProcessResult, hth, add_business, hf']
    · simp [facebookProcessResult, hth]

/-- Witness for the amended C6 at a concrete seeded store. -/
theorem c6_amended_dedup_behaviour_witness :
    googleProcessResult sampleRules 60 "Facebook".toList "food".toList
      "t2".toList { db := seededDB }
      { title := "Lagos Bakery - Facebook".toList,
        url := sampleCandidate.page_url,
        snippet := "bakery in Lagos".toList, display_link := [] }
      = { db := seededDB }
    ∧ (facebookProcessResult sampleRules 60 "food".toList "t2".toList
        { db := seededDB } sampleCandidate).db = ({ db := seededDB } : PassState).db
    ∧ (facebookProcessResult sampleRules 60 "food".toList "t2".toList
        { db := seededDB } sampleCandidate).discovered
      = ({ db := seededDB } : PassState).discovered
    ∧ (facebookProcessResult sampleRules 60 "food".toList "t2".toList
        { db := seededDB } sampleCandidate).trace
      = ({ db := seededDB } : PassState).trace
        ++ [TraceEvent.scored sampleCandidate.page_url]
        ++ (if 60 ≤ (score_business sampleRules
              { sampleCandidate with category := "food".toList }).confidence_score
            then [TraceEvent.insertAttempt sampleCandidate.page_url] else []) :=
  c6_amended_dedup_behaviour sampleRules 60 "Facebook".toList "food".toList
    "t2".toList { db := seededDB }
    { title := "Lagos Bakery - Facebook".toList,
      url := sampleCandidate.page_url,
      snippet := "bakery in Lagos".toList, display_link := [] }
    sampleCandidate (by decide) (by decide)

/-- Claim C7 (evaluation of the code at the failing input): in instant
mode, a pending record whose delivery fails is still marked alerted —
`send_alert` swallows every error and returns nothing, and
`process_instant_alerts` calls `mark_as_alerted` unconditionally, so the
record is never retried. -/
theorem c7_failed_delivery_still_marked :
    (process_instant_alerts { businesses := [sampleRow] }
      (fun _ => false)).businesses.map (fun r => r.alerted) = [true] := by
  decide

/-- Claim C9 counterexample: `mark_as_alerted` mutates the stored record
(the alerted flag flips) yet leaves `last_updated` at its prior value,
refuting "every mutation sets `last_updated_at`". -/
theorem c9_counterexample :
    (mark_as_alerted { businesses := [sampleRow] } 1).businesses.map
      (fun r => (r.alerted, r.last_updated))
    = [(true, "2024-01-01T00:00:00".toList)] := by
  decide

/-- Claim C9 amended: the initial insert sets
`discovered_date = last_updated = now`, but `mark_as_alerted` updates
only the `alerted` flag and leaves every `last_updated` in the store
unchanged. -/
theorem c9_amended_timestamps (db : DB) (bid : Nat) (b : BusinessData)
    (now : Str) (h : business_exists db b.page_url = false) :
    (mark_as_alerted db bid).businesses.map (fun r => r.last_updated)
      = db.businesses.map (fun r => r.last_updated)
    ∧ (add_business db b now).1.businesses.map (fun r => r.last_updated)
      = db.businesses.map (fun r => r.last_updated) ++ [now] := by
  constructor
  · show (db.businesses.map
        (fun r => if r.id = bid then { r with alerted := true } else r)).map
        (fun r => r.last_updated)
      = db.businesses.map (fun r => r.last_updated)
    rw [List.map_map]
    apply List.map_congr_left
    intro r _
    by_cases hid : r.id = bid <;> simp [hid]
  · simp [add_business, h, mkStored]

/-- Witness for the amended C9 at a concrete store. -/
theorem c9_amended_timestamps_witness :
    (mark_as_alerted { businesses := [sampleRow] } 1).businesses.map
        (fun r => r.last_updated)
      = (DB.mk [sampleRow] []).businesses.map (fun r => r.last_updated)
    ∧ (add_business { businesses := [sampleRow] } sampleCandidate
        "t3".toList).1.businesses.map (fun r => r.last_updated)
      = (DB.mk [sampleRow] []).businesses.map (fun r => r.last_updated)
        ++ ["t3".toList] :=
  c9_amended_timestamps { businesses := [sampleRow] } 1 sampleCandidate
    "t3".toList (by decide)

end BusinessDiscovery
